import Mathlib

set_option maxRecDepth 10000

/-!
Shallow embedding of the UltraMusicPlayer battle audio engine.

Sources embedded:
* app/src/main/cpp/soundtouch/SoundTouch.cpp (the stub SoundTouch implementation)
* app/src/main/cpp/battle_audio_engine.h (BattleLimiter, BattleCompressor, BattleBassBoost)
* UltraMusicPlayer/app/src/main/cpp/battle_audio_engine.cpp (BattleAudioEngineImpl, C API),
  compiled with USE_RUBBERBAND = 0 and HAS_SUPERPOWERED_LICENSE = true, exactly as the
  checked-in sources fix those macros.

Modelling conventions:
* C/C++ float and double values are rational numbers; all sample and parameter
  arithmetic is embedded over the rationals, with float literals taken at their decimal
  value.  Transcendental library calls (std::pow, std::exp, std::log10, std::cos,
  std::sin, std::sqrt, M_PI) are rational-valued float routines whose values the
  embedding cannot compute; they are passed in as an explicit FloatOps record of
  rational functions, so every definition stays executable and every theorem holds for
  the actual float routines in particular.
* static_cast<short>(float) truncates toward zero; static_cast<size_t> of a
  non-negative float is the floor.
* The Superpowered SDK objects and the SubHarmonicSynthesizer / BassExciter classes are
  declared in a header that is not part of the sources; they are modelled from the spec
  as abstract stateful processors (see their doc comments).
-/

namespace UltraMusic

/-- std::clamp(v, lo, hi) on float values: lo if v < lo, hi if hi < v, else v. -/
def stdClamp (v lo hi : ℚ) : ℚ :=
  if v < lo then lo else if hi < v then hi else v

/-- std::clamp on int values. -/
def stdClampZ (v lo hi : ℤ) : ℤ :=
  if v < lo then lo else if hi < v then hi else v

/-- static_cast<short>(float) / static_cast<int>(float): truncation toward zero. -/
def truncQ (q : ℚ) : ℤ :=
  if 0 ≤ q then ⌊q⌋ else ⌈q⌉

/-- Generic per-frame loop `for (i = 0; i < numSamples; i += channels)` with explicit
fuel (structural recursion, so concrete runs reduce in the kernel): the body `f`
consumes one frame of (up to) `c` interleaved samples and the running filter state.
A zero channel count would make the C++ loop spin forever; the embedding returns the
input unchanged in that (never exercised) case to stay total. -/
def frameLoopFuel {σ : Type} (c : ℕ) (f : σ → List ℚ → σ × List ℚ) :
    ℕ → σ → List ℚ → σ × List ℚ
  | 0, st, xs => (st, xs)
  | fuel + 1, st, xs =>
    if xs = [] ∨ c = 0 then (st, xs)
    else
      let r := f st (xs.take c)
      let r2 := frameLoopFuel c f fuel r.1 (xs.drop c)
      (r2.1, r.2 ++ r2.2)

/-- The frame loop itself: `xs.length` units of fuel always suffice, because each
iteration consumes at least one sample. -/
def frameLoop {σ : Type} (c : ℕ) (f : σ → List ℚ → σ × List ℚ) (st : σ)
    (xs : List ℚ) : σ × List ℚ :=
  frameLoopFuel c f xs.length st xs

-- =============================================================================
-- SoundTouch stub (soundtouch/SoundTouch.cpp, class SoundTouch::Impl)
-- =============================================================================

/-- State of the stub SoundTouch::Impl.  Samples (C++ short) are integers; the float
tempo/pitch/rate parameters are rationals.  The unused `position` member is omitted. -/
structure STState where
  sampleRate : ℕ
  channels : ℕ
  tempo : ℚ
  pitch : ℚ
  rate : ℚ
  useAAFilter : Bool
  sequenceMs : ℕ
  seekWindowMs : ℕ
  overlapMs : ℕ
  sequenceSamples : ℕ
  seekWindowSamples : ℕ
  overlapSamples : ℕ
  inputBuffer : List ℤ
  outputBuffer : List ℤ

/-- Member-initializer defaults of SoundTouch::Impl (the constructor then calls
clear(), which leaves the empty buffers empty). -/
def STState.init : STState where
  sampleRate := 44100
  channels := 2
  tempo := 1
  pitch := 1
  rate := 1
  useAAFilter := true
  sequenceMs := 40
  seekWindowMs := 15
  overlapMs := 8
  sequenceSamples := 1764
  seekWindowSamples := 661
  overlapSamples := 352
  inputBuffer := []
  outputBuffer := []

/-- Impl::updateParameters: derive window sizes in samples from the ms settings. -/
def STState.updateParameters (s : STState) : STState :=
  { s with
    sequenceSamples := s.sequenceMs * s.sampleRate / 1000
    seekWindowSamples := s.seekWindowMs * s.sampleRate / 1000
    overlapSamples := s.overlapMs * s.sampleRate / 1000 }

/-- Impl::setSampleRate. -/
def STState.setSampleRate (s : STState) (r : ℕ) : STState :=
  STState.updateParameters { s with sampleRate := r }

/-- Impl::setChannels. -/
def STState.setChannels (s : STState) (ch : ℕ) : STState :=
  { s with channels := ch }

/-- Impl::setTempo: clamp to [0.05, 10]. -/
def STState.setTempo (s : STState) (t : ℚ) : STState :=
  { s with tempo := stdClamp t 0.05 10 }

/-- Impl::setPitch: clamp to [0.25, 4]. -/
def STState.setPitch (s : STState) (p : ℚ) : STState :=
  { s with pitch := stdClamp p 0.25 4 }

/-- Impl::setRate: clamp to [0.05, 10]. -/
def STState.setRate (s : STState) (r : ℚ) : STState :=
  { s with rate := stdClamp r 0.05 10 }

/-- Impl::setSetting.  Ids are the SETTING_xxx constants of SoundTouch.h; unknown ids
(such as SETTING_AA_FILTER_LENGTH = 1) fall through to the default case and change
nothing.  The engine only ever passes non-negative values, modelled as ℕ. -/
def STState.setSetting (s : STState) (id : ℤ) (value : ℕ) : STState :=
  if id = 0 then { s with useAAFilter := value ≠ 0 }
  else if id = 3 then STState.updateParameters { s with sequenceMs := value }
  else if id = 4 then STState.updateParameters { s with seekWindowMs := value }
  else if id = 5 then STState.updateParameters { s with overlapMs := value }
  else s

/-- Array read `buffer[i]` inside Impl::processInternal.  Reads never go out of bounds
for the index arithmetic actually reachable from the engine; the default 0 only pads
the model where the C++ would be undefined. -/
def bufGet (l : List ℤ) (i : ℕ) : ℤ := l.getD i 0

/-- One output frame of the linear-interpolation resampling loop of
Impl::processInternal: position `outFrame * step` into `src` (`srcFrames` frames of
`channels` samples), clamped to the last full pair of frames, then per channel
`s1 + frac * (s2 - s1)` cast back to short. -/
def resampleFrame (src : List ℤ) (srcFrames channels : ℕ) (step : ℚ) (outFrame : ℕ) :
    List ℤ :=
  let inPos : ℚ := (outFrame : ℚ) * step
  let inFrame0 : ℕ := (⌊inPos⌋).toNat
  let atEnd : Bool := srcFrames - 1 ≤ inFrame0
  let inFrame : ℕ := if atEnd then srcFrames - 2 else inFrame0
  let frac : ℚ := if atEnd then 1 else inPos - (inFrame0 : ℚ)
  (List.range channels).map fun ch =>
    let s1 : ℚ := (bufGet src (inFrame * channels + ch) : ℚ)
    let s2 : ℚ := (bufGet src ((inFrame + 1) * channels + ch) : ℚ)
    truncQ (s1 + frac * (s2 - s1))

/-- Clamping of the effective tempo at the top of Impl::processInternal:
`float effectiveTempo = tempo * rate;` followed by the two range checks. -/
def clampedTempo (tempo rate : ℚ) : ℚ :=
  let effTempo0 : ℚ := tempo * rate
  let effTempo1 : ℚ := if effTempo0 < 0.05 then 0.05 else effTempo0
  if 10 < effTempo1 then 10 else effTempo1

/-- Impl::processInternal: the simplified WSOLA stand-in.  Clamps the effective tempo,
requires at least one sequence window of buffered input, time-stretches by linear
interpolation, optionally resamples again for pitch, appends to the output buffer and
clears the consumed input. -/
def STState.processInternal (s : STState) : STState :=
  let effTempo : ℚ := clampedTempo s.tempo s.rate
  let inputFrames : ℕ := s.inputBuffer.length / s.channels
  if inputFrames < s.sequenceSamples then s
  else
    let outputFrames : ℕ := (⌊(inputFrames : ℚ) / effTempo⌋).toNat
    if outputFrames = 0 then s
    else
      let processed : List ℤ :=
        (List.range outputFrames).flatMap
          (resampleFrame s.inputBuffer inputFrames s.channels effTempo)
      let afterPitch : List ℤ :=
        if 0.01 < |s.pitch - 1| then
          let pitchedFrames : ℕ := (⌊(outputFrames : ℚ) / s.pitch⌋).toNat
          (List.range pitchedFrames).flatMap
            (resampleFrame processed outputFrames s.channels s.pitch)
        else processed
      { s with outputBuffer := s.outputBuffer ++ afterPitch, inputBuffer := [] }

/-- Impl::putSamples(short*, numFrames): append `numFrames * channels` samples to the
input buffer, then process. -/
def STState.putSamples (s : STState) (samples : List ℤ) (numFrames : ℕ) : STState :=
  STState.processInternal
    { s with inputBuffer := s.inputBuffer ++ samples.take (numFrames * s.channels) }

/-- Impl::receiveSamples(short*, maxFrames): move up to `maxFrames * channels` samples
out of the output buffer; reports the number of full frames written. -/
def STState.receiveSamples (s : STState) (maxFrames : ℕ) : ℕ × List ℤ × STState :=
  let maxSamples := maxFrames * s.channels
  let available := min s.outputBuffer.length maxSamples
  (available / s.channels, s.outputBuffer.take available,
    { s with outputBuffer := s.outputBuffer.drop available })

/-- Impl::numSamples: output frames ready to pull. -/
def STState.numSamplesReady (s : STState) : ℕ :=
  s.outputBuffer.length / s.channels

/-- Impl::flush: re-run processInternal when buffered input remains (the sequence
window check inside processInternal still applies). -/
def STState.flush (s : STState) : STState :=
  if s.inputBuffer = [] then s else s.processInternal

/-- Impl::clear. -/
def STState.clear (s : STState) : STState :=
  { s with inputBuffer := [], outputBuffer := [] }

-- =============================================================================
-- BattleLimiter (battle_audio_engine.h)
-- =============================================================================

/-- State of BattleLimiter.  The attack/release coefficients are float values
computed by reset() from std::exp; they are state like any other field.  The
lookahead buffer is allocated by configure() but never read by process(). -/
structure LimiterState where
  enabled : Bool
  sampleRate : ℕ
  channels : ℕ
  thresholdDb : ℚ
  ceilingDb : ℚ
  threshold : ℚ
  ceiling : ℚ
  attackMs : ℚ
  releaseMs : ℚ
  lookaheadMs : ℚ
  attackSamples : ℤ
  releaseSamples : ℤ
  lookaheadSamples : ℤ
  attackCoeff : ℚ
  releaseCoeff : ℚ
  currentGain : ℚ
  lookaheadBuffer : List ℚ
  lookaheadIndex : ℕ

/-- Member-initializer defaults of BattleLimiter. -/
def LimiterState.init : LimiterState where
  enabled := true
  sampleRate := 44100
  channels := 2
  thresholdDb := -0.3
  ceilingDb := -0.1
  threshold := 0.966
  ceiling := 0.989
  attackMs := 0.5
  releaseMs := 100
  lookaheadMs := 1.5
  attackSamples := 22
  releaseSamples := 4410
  lookaheadSamples := 66
  attackCoeff := 0.1
  releaseCoeff := 0.001
  currentGain := 1
  lookaheadBuffer := []
  lookaheadIndex := 0

/-- BattleLimiter::setEnabled. -/
def LimiterState.setEnabled (st : LimiterState) (e : Bool) : LimiterState :=
  { st with enabled := e }

/-- One frame of the BattleLimiter::process loop: peak detection over the channels,
target gain, smoothed gain with attack/release, gain application and the hard clamp to
the ceiling. -/
def limiterFrame (st : LimiterState) (frame : List ℚ) : LimiterState × List ℚ :=
  let peak := frame.foldl (fun p x => max p |x|) 0
  let targetGain := if st.threshold < peak then st.threshold / peak else 1
  let cg :=
    if targetGain < st.currentGain then
      st.currentGain + (targetGain - st.currentGain) * st.attackCoeff
    else
      st.currentGain + (targetGain - st.currentGain) * st.releaseCoeff
  let gain := min cg 1
  ({ st with currentGain := cg },
    frame.map fun x => stdClamp (x * gain) (-st.ceiling) st.ceiling)

/-- BattleLimiter::process: the frame loop, skipping everything when disabled. -/
def LimiterState.process (st : LimiterState) (xs : List ℚ) : LimiterState × List ℚ :=
  if st.enabled then frameLoop st.channels limiterFrame st xs else (st, xs)

-- =============================================================================
-- BattleCompressor (battle_audio_engine.h)
-- =============================================================================

/-- State of BattleCompressor. -/
structure CompressorState where
  enabled : Bool
  sampleRate : ℕ
  channels : ℕ
  thresholdDb : ℚ
  threshold : ℚ
  ratio : ℚ
  attackMs : ℚ
  releaseMs : ℚ
  makeupGainDb : ℚ
  makeupGain : ℚ
  envelope : ℚ
  currentGain : ℚ

/-- Member-initializer defaults of BattleCompressor. -/
def CompressorState.init : CompressorState where
  enabled := true
  sampleRate := 44100
  channels := 2
  thresholdDb := -12
  threshold := 0.25
  ratio := 4
  attackMs := 5
  releaseMs := 100
  makeupGainDb := 6
  makeupGain := 2
  envelope := 0
  currentGain := 1

/-- BattleCompressor::setEnabled. -/
def CompressorState.setEnabled (st : CompressorState) (e : Bool) : CompressorState :=
  { st with enabled := e }

/-- BattleCompressor::setRatio: the ratio is floored at 1. -/
def CompressorState.setRatio (st : CompressorState) (r : ℚ) : CompressorState :=
  { st with ratio := max 1 r }

/-- BattleCompressor::configure. -/
def CompressorState.configure (st : CompressorState) (sr ch : ℕ) : CompressorState :=
  { st with sampleRate := sr, channels := ch, envelope := 0, currentGain := 1 }

/-- BattleCompressor::reset. -/
def CompressorState.reset (st : CompressorState) : CompressorState :=
  { st with envelope := 0, currentGain := 1 }

-- =============================================================================
-- BattleBassBoost (battle_audio_engine.h)
-- =============================================================================

/-- State of BattleBassBoost: a low-shelf biquad with two delay slots per channel. -/
structure BassBoostState where
  enabled : Bool
  sampleRate : ℕ
  channels : ℕ
  gainDb : ℚ
  frequency : ℚ
  b0 : ℚ
  b1 : ℚ
  b2 : ℚ
  a1 : ℚ
  a2 : ℚ
  filterStates : List ℚ

/-- Member-initializer defaults of BattleBassBoost. -/
def BassBoostState.init : BassBoostState where
  enabled := true
  sampleRate := 44100
  channels := 2
  gainDb := 6
  frequency := 80
  b0 := 1
  b1 := 0
  b2 := 0
  a1 := 0
  a2 := 0
  filterStates := []

/-- BattleBassBoost::setEnabled. -/
def BassBoostState.setEnabled (st : BassBoostState) (e : Bool) : BassBoostState :=
  { st with enabled := e }

/-- The per-channel body of the BattleBassBoost::process inner loop, walking the
channels of one frame and threading the biquad delay slots. -/
def bassChannels (b0 b1 b2 a1 a2 : ℚ) : List ℚ → ℕ → List ℚ → List ℚ × List ℚ
  | states, _, [] => (states, [])
  | states, ch, x :: rest =>
    let i := ch * 2
    let s0 := states.getD i 0
    let s1 := states.getD (i + 1) 0
    let out := b0 * x + b1 * s0 + b2 * s1 - (a1 * s0 + a2 * s1)
    let states2 := ((states.set (i + 1) s0).set i x)
    let r := bassChannels b0 b1 b2 a1 a2 states2 (ch + 1) rest
    (r.1, out :: r.2)

/-- One frame of BattleBassBoost::process. -/
def bassFrame (st : BassBoostState) (frame : List ℚ) : BassBoostState × List ℚ :=
  let r := bassChannels st.b0 st.b1 st.b2 st.a1 st.a2 st.filterStates 0 frame
  ({ st with filterStates := r.1 }, r.2)

/-- BattleBassBoost::process: a no-op when disabled or the gain is not positive. -/
def BassBoostState.process (st : BassBoostState) (xs : List ℚ) :
    BassBoostState × List ℚ :=
  if st.enabled = false ∨ st.gainDb ≤ 0 then (st, xs)
  else frameLoop st.channels bassFrame st xs

/-- BattleBassBoost::reset. -/
def BassBoostState.reset (st : BassBoostState) : BassBoostState :=
  { st with filterStates := List.replicate st.filterStates.length 0 }

-- =============================================================================
-- SubHarmonicSynthesizer and BassExciter
-- =============================================================================

/-- Modelled from the spec: the SubHarmonicSynthesizer class is declared in the
UltraMusicPlayer variant's engine header, which is not among the sources (only its
uses are).  Per spec §4.4 it is a stateful per-sample filter with a user amount in
[0, 1]; its internal memories are abstracted as a list of rationals and its per-sample
transfer function is supplied through FloatOps. -/
structure SubHarmonicSynthesizer where
  amount : ℚ
  mem : List ℚ

/-- Modelled from the spec: default-constructed synthesizer with zero amount. -/
def SubHarmonicSynthesizer.init : SubHarmonicSynthesizer where
  amount := 0
  mem := []

/-- Modelled from the spec: setAmount stores the user amount. -/
def SubHarmonicSynthesizer.setAmount (s : SubHarmonicSynthesizer) (a : ℚ) :
    SubHarmonicSynthesizer :=
  { s with amount := a }

/-- Modelled from the spec: configure(sampleRate) rebuilds the internal filter state. -/
def SubHarmonicSynthesizer.configure (s : SubHarmonicSynthesizer) (_sr : ℕ) :
    SubHarmonicSynthesizer :=
  { s with mem := [] }

/-- Modelled from the spec: reset() clears the internal filter state. -/
def SubHarmonicSynthesizer.reset (s : SubHarmonicSynthesizer) : SubHarmonicSynthesizer :=
  { s with mem := [] }

/-- Modelled from the spec: the BassExciter class, like SubHarmonicSynthesizer, is
declared in the missing engine header; same abstraction. -/
structure BassExciter where
  amount : ℚ
  mem : List ℚ

/-- Modelled from the spec: default-constructed exciter with zero amount. -/
def BassExciter.init : BassExciter where
  amount := 0
  mem := []

/-- Modelled from the spec: setAmount stores the user amount. -/
def BassExciter.setAmount (s : BassExciter) (a : ℚ) : BassExciter :=
  { s with amount := a }

/-- Modelled from the spec: configure(sampleRate) rebuilds the internal filter state. -/
def BassExciter.configure (s : BassExciter) (_sr : ℕ) : BassExciter :=
  { s with mem := [] }

/-- Modelled from the spec: reset() clears the internal filter state. -/
def BassExciter.reset (s : BassExciter) : BassExciter :=
  { s with mem := [] }

-- =============================================================================
-- BattleAudioEngineImpl (UltraMusicPlayer variant of battle_audio_engine.cpp)
-- =============================================================================

/-- State of BattleAudioEngineImpl.  AudioEngineType is declared in the missing engine
header; modelled from the spec as the closed int-valued enumeration 0 = SoundTouch
(reference), 1 = Superpowered (licensed), 2 = Rubberband (studio) — the C wrapper
comment `return 0; // Default to SoundTouch` fixes 0, and the fallback chain fixes the
order.  static_cast between int and the enumeration preserves the value, so
currentEngine is carried as an integer.  The Superpowered SDK objects are opaque
licensed components (spec §1); their tuning fields that the engine writes are modelled
directly and their signal-processing internals as the abstract list `spState`. -/
structure EngineState where
  currentEngine : ℤ
  superpoweredAvailable : Bool
  rubberbandAvailable : Bool
  spState : List ℚ
  spCompressorEnabled : Bool
  spLimiterEnabled : Bool
  spEQEnabled : Bool
  spEQLow : ℚ
  spTimeStretcherRate : ℚ
  spPitchShiftCents : ℤ
  spFormantCorrection : ℚ
  soundTouch : STState
  limiter : LimiterState
  compressor : CompressorState
  bassBoost : BassBoostState
  subL : SubHarmonicSynthesizer
  subR : SubHarmonicSynthesizer
  excL : BassExciter
  excR : BassExciter
  subHarmonicAmount : ℚ
  exciterAmount : ℚ
  sampleRate : ℕ
  channels : ℕ
  speed : ℚ
  pitchSemitones : ℚ
  rate : ℚ
  bassBoostAmount : ℚ
  formantPreservation : Bool
  battleMode : Bool
  useRateMode : Bool
  limiterEnabled : Bool
  hardwareProtection : Bool
  hardLimiterCeiling : ℚ
  subBassFilterEnabled : Bool
  dcBlockerEnabled : Bool
  dcBlockerState : ℚ
  audiophileMode : Bool
  clarityEnhanceEnabled : Bool
  clarityAmount : ℚ
  ditheringEnabled : Bool

/-- Rational-valued stand-ins for the float library routines the engine calls, plus
the abstract per-sample transfer functions of the processors whose code is outside
the sources.  Each field is a function from rationals to rationals, exactly the shape
of the corresponding float routine; theorems quantifying over FloatOps hold for the
actual float implementations in particular. -/
structure FloatOps where
  pow2 : ℚ → ℚ
  pow10 : ℚ → ℚ
  log10 : ℚ → ℚ
  expQ : ℚ → ℚ
  cosQ : ℚ → ℚ
  sinQ : ℚ → ℚ
  sqrtQ : ℚ → ℚ
  piQ : ℚ
  subStep : ℚ → List ℚ → ℚ → List ℚ × ℚ
  excStep : ℚ → List ℚ → ℚ → List ℚ × ℚ
  spPath : EngineState → List ℤ → ℤ →
    (List ℚ × List ℚ × List ℚ × List ℚ × List ℚ) × List ℤ × ℤ

-- Function bodies that need the float routines.

/-- BattleLimiter::reset: gain back to 1 and the exponential smoothing coefficients
recomputed from the attack/release sample counts. -/
def LimiterState.reset (F : FloatOps) (st : LimiterState) : LimiterState :=
  { st with
    currentGain := 1
    attackCoeff := 1 - F.expQ (-2.2 / (st.attackSamples : ℚ))
    releaseCoeff := 1 - F.expQ (-2.2 / (st.releaseSamples : ℚ)) }

/-- BattleLimiter::configure: attack/release/lookahead sample counts from the ms
settings (int casts truncate), lookahead buffer sized and zeroed, then reset(). -/
def LimiterState.configure (F : FloatOps) (st : LimiterState) (sr ch : ℕ) :
    LimiterState :=
  let st := { st with sampleRate := sr, channels := ch }
  let st := { st with
    attackSamples := truncQ (st.attackMs * (sr : ℚ) / 1000)
    releaseSamples := truncQ (st.releaseMs * (sr : ℚ) / 1000) }
  let st := { st with lookaheadSamples := truncQ (st.lookaheadMs * (sr : ℚ) / 1000) }
  let st := { st with
    lookaheadBuffer := List.replicate ((st.lookaheadSamples.toNat) * ch) 0
    lookaheadIndex := 0 }
  st.reset F

/-- BattleLimiter::setThreshold: store the dB value and its linear conversion. -/
def LimiterState.setThreshold (F : FloatOps) (st : LimiterState) (db : ℚ) :
    LimiterState :=
  { st with thresholdDb := db, threshold := F.pow10 (db / 20) }

/-- One frame of the BattleCompressor::process loop: peak detection, envelope
follower, log-domain gain reduction above the threshold, first-order gain smoothing,
then gain and makeup application. -/
def compressorFrame (F : FloatOps) (ac rc : ℚ) (st : CompressorState)
    (frame : List ℚ) : CompressorState × List ℚ :=
  let peak := frame.foldl (fun p x => max p |x|) 0
  let env :=
    if st.envelope < peak then ac * st.envelope + (1 - ac) * peak
    else rc * st.envelope + (1 - rc) * peak
  let gain :=
    if st.threshold < env then
      let overDb := 20 * F.log10 (env / st.threshold)
      let reducedDb := overDb / st.ratio
      F.pow10 ((reducedDb - overDb) / 20)
    else 1
  let cg := 0.9 * st.currentGain + 0.1 * gain
  ({ st with envelope := env, currentGain := cg },
    frame.map fun x => x * (cg * st.makeupGain))

/-- BattleCompressor::process: computes the attack/release coefficients from the ms
settings with std::exp, then runs the frame loop; a no-op when disabled. -/
def CompressorState.process (F : FloatOps) (st : CompressorState) (xs : List ℚ) :
    CompressorState × List ℚ :=
  if st.enabled = false then (st, xs)
  else
    let ac := F.expQ (-1 / (st.attackMs * (st.sampleRate : ℚ) / 1000))
    let rc := F.expQ (-1 / (st.releaseMs * (st.sampleRate : ℚ) / 1000))
    frameLoop st.channels (compressorFrame F ac rc) st xs

/-- BattleBassBoost::calculateCoefficients: the low-shelf design formulas (a division
by a0 = 0 would be undefined in C++ too and is never reached for the clamped
gain/frequency ranges). -/
def bassCalcCoefficients (F : FloatOps) (st : BassBoostState) : BassBoostState :=
  let A := F.pow10 (st.gainDb / 40)
  let w0 := 2 * F.piQ * st.frequency / (st.sampleRate : ℚ)
  let cosW0 := F.cosQ w0
  let sinW0 := F.sinQ w0
  let alpha := sinW0 / 2 * F.sqrtQ ((A + 1 / A) * (1 / 0.707 - 1) + 2)
  let a0 := (A + 1) + (A - 1) * cosW0 + 2 * F.sqrtQ A * alpha
  { st with
    b0 := (A * ((A + 1) - (A - 1) * cosW0 + 2 * F.sqrtQ A * alpha)) / a0
    b1 := (2 * A * ((A - 1) - (A + 1) * cosW0)) / a0
    b2 := (A * ((A + 1) - (A - 1) * cosW0 - 2 * F.sqrtQ A * alpha)) / a0
    a1 := (-2 * ((A - 1) + (A + 1) * cosW0)) / a0
    a2 := ((A + 1) + (A - 1) * cosW0 - 2 * F.sqrtQ A * alpha) / a0 }

/-- BattleBassBoost::setGain: clamp to [0, 24] dB and recompute coefficients. -/
def BassBoostState.setGain (F : FloatOps) (st : BassBoostState) (g : ℚ) :
    BassBoostState :=
  bassCalcCoefficients F { st with gainDb := stdClamp g 0 24 }

/-- BattleBassBoost::configure: store the format, recompute coefficients, size the
delay-state vector (2 per channel) and zero it. -/
def BassBoostState.configure (F : FloatOps) (st : BassBoostState) (sr ch : ℕ) :
    BassBoostState :=
  let st := bassCalcCoefficients F { st with sampleRate := sr, channels := ch }
  { st with filterStates := List.replicate (ch * 2) 0 }

-- =============================================================================
-- BattleAudioEngineImpl operations
-- =============================================================================

/-- BattleAudioEngineImpl::updateSoundTouch: rate mode drives SoundTouch's rate with
tempo/pitch at 1; normal mode drives tempo from speed and pitch from
2^(semitones/12).  When the licensed stretcher exists its rate is clamped to
[0.25, 4] and its pitch cents (int cast of semitones*100) to [-2400, 2400]. -/
def EngineState.updateSoundTouch (F : FloatOps) (s : EngineState) : EngineState :=
  let stp :=
    if s.useRateMode then ((s.soundTouch.setRate s.rate).setTempo 1).setPitch 1
    else
      let pitchMultiplier := F.pow2 (s.pitchSemitones / 12)
      ((s.soundTouch.setRate 1).setTempo s.speed).setPitch pitchMultiplier
  { s with
    soundTouch := stp
    spTimeStretcherRate :=
      if s.superpoweredAvailable then stdClamp s.speed 0.25 4
      else s.spTimeStretcherRate
    spPitchShiftCents :=
      if s.superpoweredAvailable then
        stdClampZ (truncQ (s.pitchSemitones * 100)) (-2400) 2400
      else s.spPitchShiftCents }

/-- BattleAudioEngineImpl::setSpeed: clamp to [0.05, 10], push into the backends. -/
def EngineState.setSpeed (F : FloatOps) (s : EngineState) (v : ℚ) : EngineState :=
  EngineState.updateSoundTouch F { s with speed := stdClamp v 0.05 10 }

/-- BattleAudioEngineImpl::setPitch: clamp to [-36, 36] semitones, push into the
backends. -/
def EngineState.setPitch (F : FloatOps) (s : EngineState) (semitones : ℚ) :
    EngineState :=
  EngineState.updateSoundTouch F { s with pitchSemitones := stdClamp semitones (-36) 36 }

/-- BattleAudioEngineImpl::setRate: clamp to [0.05, 10], switch rate mode on, push
into the backends. -/
def EngineState.setRate (F : FloatOps) (s : EngineState) (v : ℚ) : EngineState :=
  EngineState.updateSoundTouch F
    { s with rate := stdClamp v 0.05 10, useRateMode := true }

/-- BattleAudioEngineImpl::setFormantPreservation. -/
def EngineState.setFormantPreservation (s : EngineState) (enabled : Bool) :
    EngineState :=
  { s with
    formantPreservation := enabled
    spFormantCorrection :=
      if s.superpoweredAvailable then (if enabled then 0.7 else 0)
      else s.spFormantCorrection }

/-- BattleAudioEngineImpl::setBattleMode. -/
def EngineState.setBattleMode (s : EngineState) (enabled : Bool) : EngineState :=
  { s with
    battleMode := enabled
    limiter := s.limiter.setEnabled (enabled && s.limiterEnabled)
    compressor := s.compressor.setEnabled enabled
    spCompressorEnabled :=
      if s.superpoweredAvailable then enabled else s.spCompressorEnabled
    spLimiterEnabled :=
      if s.superpoweredAvailable then (enabled && s.limiterEnabled)
      else s.spLimiterEnabled }

/-- BattleAudioEngineImpl::setLimiterEnabled. -/
def EngineState.setLimiterEnabled (s : EngineState) (enabled : Bool) : EngineState :=
  { s with
    limiterEnabled := enabled
    limiter := s.limiter.setEnabled enabled
    spLimiterEnabled :=
      if s.superpoweredAvailable then enabled else s.spLimiterEnabled }

/-- BattleAudioEngineImpl::setHardwareProtection. -/
def EngineState.setHardwareProtection (s : EngineState) (enabled : Bool) :
    EngineState :=
  if enabled then
    { s with
      hardwareProtection := true
      hardLimiterCeiling := 0.944
      subBassFilterEnabled := true
      dcBlockerEnabled := true }
  else
    { s with
      hardwareProtection := false
      hardLimiterCeiling := 1
      subBassFilterEnabled := false
      dcBlockerEnabled := false }

/-- BattleAudioEngineImpl::setAudiophileMode: entering disables the compressor and
zeroes the sub-harmonic/exciter amounts; leaving re-enables the compressor from
battleMode and turns the clarity/dithering extras off. -/
def EngineState.setAudiophileMode (s : EngineState) (enabled : Bool) : EngineState :=
  if enabled then
    { s with
      audiophileMode := true
      compressor := s.compressor.setEnabled false
      spCompressorEnabled :=
        if s.superpoweredAvailable then false else s.spCompressorEnabled
      subHarmonicAmount := 0
      exciterAmount := 0
      subL := s.subL.setAmount 0
      subR := s.subR.setAmount 0
      excL := s.excL.setAmount 0
      excR := s.excR.setAmount 0
      clarityEnhanceEnabled := true
      clarityAmount := 0.2
      ditheringEnabled := true }
  else
    { s with
      audiophileMode := false
      compressor := s.compressor.setEnabled s.battleMode
      spCompressorEnabled :=
        if s.superpoweredAvailable then s.battleMode else s.spCompressorEnabled
      clarityEnhanceEnabled := false
      ditheringEnabled := false }

/-- BattleAudioEngineImpl::setBassBoost: clamp to [0, 24] dB, update the shelf filter
and, when present, the licensed 3-band EQ. -/
def EngineState.setBassBoost (F : FloatOps) (s : EngineState) (amount : ℚ) :
    EngineState :=
  let a := stdClamp amount 0 24
  { s with
    bassBoostAmount := a
    bassBoost := s.bassBoost.setGain F a
    spEQEnabled := if s.superpoweredAvailable then decide (0 < a) else s.spEQEnabled
    spEQLow := if s.superpoweredAvailable then F.pow10 (a / 20) else s.spEQLow }

/-- BattleAudioEngineImpl::setSubHarmonicAmount: clamp to [0, 1]. -/
def EngineState.setSubHarmonicAmount (s : EngineState) (amount : ℚ) : EngineState :=
  let a := stdClamp amount 0 1
  { s with
    subHarmonicAmount := a
    subL := s.subL.setAmount a
    subR := s.subR.setAmount a }

/-- BattleAudioEngineImpl::setExciterAmount: clamp to [0, 1]. -/
def EngineState.setExciterAmount (s : EngineState) (amount : ℚ) : EngineState :=
  let a := stdClamp amount 0 1
  { s with
    exciterAmount := a
    excL := s.excL.setAmount a
    excR := s.excR.setAmount a }

/-- BattleAudioEngineImpl::setLimiterThreshold. -/
def EngineState.setLimiterThreshold (F : FloatOps) (s : EngineState) (db : ℚ) :
    EngineState :=
  { s with limiter := s.limiter.setThreshold F db }

/-- BattleAudioEngineImpl::setCompressorRatio. -/
def EngineState.setCompressorRatio (s : EngineState) (r : ℚ) : EngineState :=
  { s with compressor := s.compressor.setRatio r }

/-- BattleAudioEngineImpl::flush: flush the SoundTouch backend. -/
def EngineState.flushBackend (s : EngineState) : EngineState :=
  { s with soundTouch := s.soundTouch.flush }

/-- BattleAudioEngineImpl::clear: reset the backends and every chain filter without
deallocating.  (Recreating the licensed stretcher's internal state is its reset.) -/
def EngineState.clear (F : FloatOps) (s : EngineState) : EngineState :=
  { s with
    soundTouch := s.soundTouch.clear
    spState := if s.superpoweredAvailable then [] else s.spState
    limiter := s.limiter.reset F
    compressor := s.compressor.reset
    bassBoost := s.bassBoost.reset
    subL := s.subL.reset
    subR := s.subR.reset
    excL := s.excL.reset
    excR := s.excR.reset }

/-- The fallback checks at the top of BattleAudioEngineImpl::setAudioEngine:
an unavailable Superpowered request falls back to Rubberband then SoundTouch, an
unavailable Rubberband request to Superpowered then SoundTouch. -/
def fallbackEngine (s : EngineState) (engine : ℤ) : ℤ :=
  let e1 :=
    if engine = 1 ∧ s.superpoweredAvailable = false then
      (if s.rubberbandAvailable then 2 else 0)
    else engine
  if e1 = 2 ∧ s.rubberbandAvailable = false then
    (if s.superpoweredAvailable then 1 else 0)
  else e1

/-- BattleAudioEngineImpl::setAudioEngine continued: store the fallen-back engine,
clear all buffers, then run the switch — whose RUBBERBAND case, compiled with
USE_RUBBERBAND = 0, forces the engine back to SoundTouch. -/
def EngineState.setAudioEngine (F : FloatOps) (s : EngineState) (engine : ℤ) :
    EngineState :=
  if engine = s.currentEngine then s
  else
    let e2 := fallbackEngine s engine
    let s2 := EngineState.clear F { s with currentEngine := e2 }
    if e2 = 2 then { s2 with currentEngine := 0 } else s2

/-- BattleAudioEngineImpl::getAudioEngine (and battle_engine_get_audio_engine's cast
back to int). -/
def EngineState.getAudioEngine (s : EngineState) : ℤ :=
  s.currentEngine

/-- BattleAudioEngineImpl::getSpeed. -/
def EngineState.getSpeed (s : EngineState) : ℚ := s.speed

/-- BattleAudioEngineImpl::getPitch. -/
def EngineState.getPitch (s : EngineState) : ℚ := s.pitchSemitones

/-- One frame of the psychoacoustic enhancement loop inside processSoundTouch: the
sub-harmonic synthesizer and exciter are applied to the left sample, and to the right
sample when stereo, each only when its engine-level amount is positive. -/
def subExcFrame (F : FloatOps) (gSub gExc aSL aSR aEL aER : ℚ)
    (mems : (List ℚ × List ℚ) × (List ℚ × List ℚ)) (frame : List ℚ) :
    ((List ℚ × List ℚ) × (List ℚ × List ℚ)) × List ℚ :=
  match frame with
  | [] => (mems, [])
  | x :: rest =>
    let r1 := if 0 < gSub then F.subStep aSL mems.1.1 x else (mems.1.1, x)
    let r2 := if 0 < gExc then F.excStep aEL mems.2.1 r1.2 else (mems.2.1, r1.2)
    match rest with
    | [] => (((r1.1, mems.1.2), (r2.1, mems.2.2)), [r2.2])
    | y :: rest2 =>
      let r3 := if 0 < gSub then F.subStep aSR mems.1.2 y else (mems.1.2, y)
      let r4 := if 0 < gExc then F.excStep aER mems.2.2 r3.2 else (mems.2.2, r3.2)
      (((r1.1, r3.1), (r2.1, r4.1)), r2.2 :: r4.2 :: rest2)

/-- BattleAudioEngineImpl::processSoundTouch: push the frames, pull up to 32768
frames, and when battle mode is on run bass boost, psychoacoustic enhancement,
compressor and limiter over the float conversion before converting back to shorts
with a hard clamp. -/
def EngineState.processSoundTouchPath (F : FloatOps) (s : EngineState)
    (input : List ℤ) (numSamples : ℤ) : EngineState × List ℤ × ℤ :=
  let numFrames := (numSamples / (s.channels : ℤ)).toNat
  let st1 := s.soundTouch.putSamples input numFrames
  let rec1 := st1.receiveSamples 32768
  let s := { s with soundTouch := rec1.2.2 }
  if rec1.1 = 0 then (s, [], 0)
  else
    let totalSamples := rec1.1 * s.channels
    if s.battleMode then
      let fbuf0 := (rec1.2.1.take totalSamples).map fun x => (x : ℚ) / 32768
      let bb :=
        if 0 < s.bassBoostAmount then s.bassBoost.process fbuf0
        else (s.bassBoost, fbuf0)
      let s := { s with bassBoost := bb.1 }
      let se :=
        if 0 < s.subHarmonicAmount ∨ 0 < s.exciterAmount then
          frameLoop s.channels
            (subExcFrame F s.subHarmonicAmount s.exciterAmount
              s.subL.amount s.subR.amount s.excL.amount s.excR.amount)
            ((s.subL.mem, s.subR.mem), (s.excL.mem, s.excR.mem)) bb.2
        else (((s.subL.mem, s.subR.mem), (s.excL.mem, s.excR.mem)), bb.2)
      let s := { s with
        subL := { s.subL with mem := se.1.1.1 }
        subR := { s.subR with mem := se.1.1.2 }
        excL := { s.excL with mem := se.1.2.1 }
        excR := { s.excR with mem := se.1.2.2 } }
      let co := s.compressor.process F se.2
      let s := { s with compressor := co.1 }
      let li := s.limiter.process co.2
      let s := { s with limiter := li.1 }
      (s, li.2.map fun q => truncQ (stdClamp (q * 32767) (-32768) 32767), totalSamples)
    else
      (s, rec1.2.1.take totalSamples, totalSamples)

/-- BattleAudioEngineImpl::processSuperpowered: falls back to the SoundTouch path when
the licensed stretcher does not exist; otherwise runs the licensed pipeline, which may
touch only the licensed internals, the psychoacoustic filter memories and the
output — modelled by the abstract FloatOps.spPath. -/
def EngineState.processSuperpoweredPath (F : FloatOps) (s : EngineState)
    (input : List ℤ) (numSamples : ℤ) : EngineState × List ℤ × ℤ :=
  if s.superpoweredAvailable = false then
    EngineState.processSoundTouchPath F s input numSamples
  else
    let r := F.spPath s input numSamples
    ({ s with
        spState := r.1.1
        subL := { s.subL with mem := r.1.2.1 }
        subR := { s.subR with mem := r.1.2.2.1 }
        excL := { s.excL with mem := r.1.2.2.2.1 }
        excR := { s.excR with mem := r.1.2.2.2.2 } },
      r.2.1, r.2.2)

/-- BattleAudioEngineImpl::process: non-positive sample counts produce nothing and
touch nothing; otherwise the call is routed by the current engine id — Superpowered
for 1, and the SoundTouch path both for the RUBBERBAND case (compiled with
USE_RUBBERBAND = 0) and for the SOUNDTOUCH/default case. -/
def EngineState.process (F : FloatOps) (s : EngineState) (input : List ℤ)
    (numSamples : ℤ) : EngineState × List ℤ × ℤ :=
  if numSamples ≤ 0 then (s, [], 0)
  else if s.currentEngine = 1 then
    EngineState.processSuperpoweredPath F s input numSamples
  else if s.currentEngine = 2 then
    EngineState.processSoundTouchPath F s input numSamples
  else
    EngineState.processSoundTouchPath F s input numSamples

/-- BattleAudioEngineImpl::configure: rebuild the licensed components when available,
reconfigure SoundTouch and every chain filter for the new format. -/
def EngineState.configure (F : FloatOps) (s : EngineState) (sr ch : ℕ) : EngineState :=
  let s := { s with sampleRate := sr, channels := ch }
  let s :=
    if s.superpoweredAvailable then
      { s with
        spState := []
        spFormantCorrection := if s.formantPreservation then 0.7 else 0
        spCompressorEnabled := s.battleMode
        spLimiterEnabled := s.limiterEnabled
        spEQEnabled := decide (0 < s.bassBoostAmount) }
    else s
  let s := { s with soundTouch := (s.soundTouch.setSampleRate sr).setChannels ch }
  let s := EngineState.updateSoundTouch F s
  { s with
    limiter := s.limiter.configure F sr ch
    compressor := s.compressor.configure sr ch
    bassBoost := s.bassBoost.configure F sr ch
    subL := s.subL.configure sr
    subR := s.subR.configure sr
    excL := s.excL.configure sr
    excR := s.excR.configure sr }

/-- battle_engine_create / the BattleAudioEngineImpl constructor, compiled with the
checked-in evaluation license string (longer than 10 characters, so
superpoweredAvailable is true) and without Rubberband.  SoundTouch gets the quality
settings 82/28/12 ms (SETTING_AA_FILTER_LENGTH is not handled by the stub). -/
def engineCreate : EngineState where
  currentEngine := 0
  superpoweredAvailable := true
  rubberbandAvailable := false
  spState := []
  spCompressorEnabled := true
  spLimiterEnabled := true
  spEQEnabled := true
  spEQLow := 1
  spTimeStretcherRate := 1
  spPitchShiftCents := 0
  spFormantCorrection := 0.5
  soundTouch :=
    ((((STState.init.setSetting 0 1).setSetting 1 128).setSetting 3 82).setSetting
        4 28).setSetting 5 12
  limiter := LimiterState.init
  compressor := CompressorState.init
  bassBoost := BassBoostState.init
  subL := SubHarmonicSynthesizer.init
  subR := SubHarmonicSynthesizer.init
  excL := BassExciter.init
  excR := BassExciter.init
  subHarmonicAmount := 0
  exciterAmount := 0
  sampleRate := 44100
  channels := 2
  speed := 1
  pitchSemitones := 0
  rate := 1
  bassBoostAmount := 0
  formantPreservation := true
  battleMode := false
  useRateMode := false
  limiterEnabled := true
  hardwareProtection := true
  hardLimiterCeiling := 0.944
  subBassFilterEnabled := true
  dcBlockerEnabled := true
  dcBlockerState := 0
  audiophileMode := false
  clarityEnhanceEnabled := false
  clarityAmount := 0
  ditheringEnabled := false

/-- Which backend ids are available, per the availability flags (the reference
backend 0 is always available; ids outside the enumeration never are). -/
def backendAvailable (s : EngineState) (e : ℤ) : Bool :=
  if e = 0 then true
  else if e = 1 then s.superpoweredAvailable
  else if e = 2 then s.rubberbandAvailable
  else false

/-- Modelled from the spec: the backend that a request for `e` should end on — the
requested backend when available, otherwise the first available one in the fixed
priority order licensed (1) > studio (2) > reference (0). -/
def specFallbackTarget (s : EngineState) (e : ℤ) : ℤ :=
  if backendAvailable s e then e
  else if backendAvailable s 1 then 1
  else if backendAvailable s 2 then 2
  else 0

/-- A concrete FloatOps instance used to evaluate witnesses; any rational-valued
choice is admissible for the abstract float routines. -/
def opsTest : FloatOps where
  pow2 := fun x => 1 + x
  pow10 := fun _ => 1
  log10 := fun _ => 0
  expQ := fun _ => 1 / 2
  cosQ := fun _ => 0
  sinQ := fun _ => 0
  sqrtQ := fun _ => 1
  piQ := 3
  subStep := fun _ m x => (m, x)
  excStep := fun _ m x => (m, x)
  spPath := fun s _ _ =>
    ((s.spState, s.subL.mem, s.subR.mem, s.excL.mem, s.excR.mem), [], 0)

-- =============================================================================
-- THEOREMS
-- =============================================================================

-- Generic facts about stdClamp and the frame loop.

theorem stdClamp_le (v lo hi : ℚ) (h : lo ≤ hi) : stdClamp v lo hi ≤ hi := by
  rw [stdClamp]
  split_ifs with h1 h2
  · exact h
  · exact le_refl hi
  · push_neg at h2
    exact h2

theorem le_stdClamp (v lo hi : ℚ) (h : lo ≤ hi) : lo ≤ stdClamp v lo hi := by
  rw [stdClamp]
  split_ifs with h1 h2
  · exact le_refl lo
  · exact h
  · push_neg at h1
    exact h1

theorem abs_stdClamp_le (v c : ℚ) (hc : 0 ≤ c) : |stdClamp v (-c) c| ≤ c := by
  have h : -c ≤ c := by linarith
  rw [abs_le]
  exact ⟨le_stdClamp v (-c) c h, stdClamp_le v (-c) c h⟩

/-- Every output sample of a frame loop satisfies the bound `B` provided the frame body
keeps an invariant `P` of the filter state and emits only samples within the bound. -/
theorem frameLoopFuel_out_bound {σ : Type} (c : ℕ) (f : σ → List ℚ → σ × List ℚ)
    (P : σ → Prop) (B : ℚ)
    (hpres : ∀ st frame, P st → P (f st frame).1)
    (hout : ∀ st frame, P st → ∀ y ∈ (f st frame).2, |y| ≤ B)
    (hc : 0 < c) :
    ∀ (fuel : ℕ) (xs : List ℚ), xs.length ≤ fuel → ∀ (st : σ), P st →
      ∀ y ∈ (frameLoopFuel c f fuel st xs).2, |y| ≤ B := by
  intro fuel
  induction fuel with
  | zero =>
    intro xs hxs st hP y hy
    have : xs = [] := List.length_eq_zero.mp (Nat.le_zero.mp hxs)
    subst this
    simp [frameLoopFuel] at hy
  | succ n ih =>
    intro xs hxs st hP y hy
    rw [frameLoopFuel] at hy
    by_cases hguard : xs = [] ∨ c = 0
    · rw [if_pos hguard] at hy
      rcases hguard with h | h
      · subst h; simp at hy
      · omega
    · rw [if_neg hguard] at hy
      simp only [List.mem_append] at hy
      rcases hy with hy | hy
      · exact hout st (xs.take c) hP y hy
      · have hxne : xs ≠ [] := by
          intro h; exact hguard (Or.inl h)
        have hlen : (xs.drop c).length ≤ n := by
          have h1 : 0 < xs.length := List.length_pos.mpr hxne
          simp only [List.length_drop]
          omega
        exact ih (xs.drop c) hlen _ (hpres st (xs.take c) hP) y hy

/-- Specialization of frameLoopFuel_out_bound to the frame loop. -/
theorem frameLoop_out_bound {σ : Type} (c : ℕ) (f : σ → List ℚ → σ × List ℚ)
    (P : σ → Prop) (B : ℚ)
    (hpres : ∀ st frame, P st → P (f st frame).1)
    (hout : ∀ st frame, P st → ∀ y ∈ (f st frame).2, |y| ≤ B)
    (hc : 0 < c) (xs : List ℚ) (st : σ) (hP : P st) :
    ∀ y ∈ (frameLoop c f st xs).2, |y| ≤ B :=
  frameLoopFuel_out_bound c f P B hpres hout hc xs.length xs (le_refl _) st hP

/-- A frame loop whose body, under a state invariant `P` and an elementwise input
bound `Q`, maps each frame pointwise by `g` and preserves `P`, maps the whole input
pointwise by `g`. -/
theorem frameLoopFuel_out_map {σ : Type} (c : ℕ) (f : σ → List ℚ → σ × List ℚ)
    (P : σ → Prop) (Q : ℚ → Prop) (g : ℚ → ℚ)
    (hpres : ∀ st frame, P st → (∀ x ∈ frame, Q x) → P (f st frame).1)
    (hmap : ∀ st frame, P st → (∀ x ∈ frame, Q x) → (f st frame).2 = frame.map g)
    (hc : 0 < c) :
    ∀ (fuel : ℕ) (xs : List ℚ), xs.length ≤ fuel → ∀ (st : σ), P st →
      (∀ x ∈ xs, Q x) → (frameLoopFuel c f fuel st xs).2 = xs.map g := by
  intro fuel
  induction fuel with
  | zero =>
    intro xs hxs st hP hQ
    have : xs = [] := List.length_eq_zero.mp (Nat.le_zero.mp hxs)
    subst this
    simp [frameLoopFuel]
  | succ n ih =>
    intro xs hxs st hP hQ
    rw [frameLoopFuel]
    by_cases hguard : xs = [] ∨ c = 0
    · rw [if_pos hguard]
      rcases hguard with h | h
      · subst h; simp
      · omega
    · rw [if_neg hguard]
      have hxne : xs ≠ [] := fun h => hguard (Or.inl h)
      have hQt : ∀ x ∈ xs.take c, Q x := fun x hx => hQ x (List.take_subset c xs hx)
      have hQd : ∀ x ∈ xs.drop c, Q x := fun x hx => hQ x (List.drop_subset c xs hx)
      have hlen : (xs.drop c).length ≤ n := by
        have h1 : 0 < xs.length := List.length_pos.mpr hxne
        simp only [List.length_drop]
        omega
      have hrec := ih (xs.drop c) hlen _ (hpres st (xs.take c) hP hQt) hQd
      simp only [hrec, hmap st (xs.take c) hP hQt]
      rw [← List.map_append, List.take_append_drop]

/-- Specialization of frameLoopFuel_out_map to the frame loop. -/
theorem frameLoop_out_map {σ : Type} (c : ℕ) (f : σ → List ℚ → σ × List ℚ)
    (P : σ → Prop) (Q : ℚ → Prop) (g : ℚ → ℚ)
    (hpres : ∀ st frame, P st → (∀ x ∈ frame, Q x) → P (f st frame).1)
    (hmap : ∀ st frame, P st → (∀ x ∈ frame, Q x) → (f st frame).2 = frame.map g)
    (hc : 0 < c) (xs : List ℚ) (st : σ) (hP : P st) (hQ : ∀ x ∈ xs, Q x) :
    (frameLoop c f st xs).2 = xs.map g :=
  frameLoopFuel_out_map c f P Q g hpres hmap hc xs.length xs (le_refl _) st hP hQ

-- Facts about the stub SoundTouch processing.

@[simp] theorem length_resampleFrame (src : List ℤ) (sf c : ℕ) (st : ℚ) (i : ℕ) :
    (resampleFrame src sf c st i).length = c := by
  simp [resampleFrame]

theorem clampedTempo_pos (t r : ℚ) : 0 < clampedTempo t r := by
  show 0 < if 10 < (if t * r < 0.05 then 0.05 else t * r) then 10
      else (if t * r < 0.05 then 0.05 else t * r)
  split_ifs with h10 h05 h05
  all_goals try push_neg at h10 h05
  all_goals linarith

theorem clampedTempo_le (t r : ℚ) : clampedTempo t r ≤ 10 := by
  show (if 10 < (if t * r < 0.05 then 0.05 else t * r) then 10
      else (if t * r < 0.05 then 0.05 else t * r)) ≤ 10
  split_ifs with h10 h05 h05
  all_goals try push_neg at h10 h05
  all_goals linarith

/-- When at least one sequence window (and at least 40 frames) of input is buffered
and the pitch ratio lies in its clamped range, processInternal consumes the input and
strictly extends the output buffer. -/
theorem processInternal_emits (s : STState) (hch : 0 < s.channels)
    (hseq : s.sequenceSamples ≤ s.inputBuffer.length / s.channels)
    (hbig : 40 ≤ s.inputBuffer.length / s.channels)
    (hp0 : 0 < s.pitch) (hp4 : s.pitch ≤ 4) :
    s.processInternal.inputBuffer = [] ∧
      s.outputBuffer.length < s.processInternal.outputBuffer.length := by
  have hnotlt : ¬ (s.inputBuffer.length / s.channels < s.sequenceSamples) :=
    not_lt.mpr hseq
  have hepos : 0 < clampedTempo s.tempo s.rate := clampedTempo_pos _ _
  have hele : clampedTempo s.tempo s.rate ≤ 10 := clampedTempo_le _ _
  have h40 : (40:ℚ) ≤ ((s.inputBuffer.length / s.channels : ℕ) : ℚ) := by
    exact_mod_cast hbig
  have h1 : (4:ℚ) ≤ ((s.inputBuffer.length / s.channels : ℕ) : ℚ) /
      clampedTempo s.tempo s.rate := by
    rw [le_div_iff₀ hepos]
    linarith
  have h4 : (4:ℤ) ≤
      ⌊((s.inputBuffer.length / s.channels : ℕ) : ℚ) / clampedTempo s.tempo s.rate⌋ :=
    Int.le_floor.mpr (by exact_mod_cast h1)
  have hOF4 : 4 ≤
      (⌊((s.inputBuffer.length / s.channels : ℕ) : ℚ) /
        clampedTempo s.tempo s.rate⌋).toNat := by
    omega
  have hOFne : ¬ ((⌊((s.inputBuffer.length / s.channels : ℕ) : ℚ) /
      clampedTempo s.tempo s.rate⌋).toNat = 0) := by omega
  constructor
  · rw [STState.processInternal]
    simp only [if_neg hnotlt, if_neg hOFne]
  · rw [STState.processInternal]
    simp only [if_neg hnotlt, if_neg hOFne]
    simp only [List.length_append, lt_add_iff_pos_right]
    split_ifs with hpc
    · have hOFc : (4:ℚ) ≤ ((⌊((s.inputBuffer.length / s.channels : ℕ) : ℚ) /
          clampedTempo s.tempo s.rate⌋).toNat : ℚ) := by
        exact_mod_cast hOF4
      have hPF : (1:ℚ) ≤ ((⌊((s.inputBuffer.length / s.channels : ℕ) : ℚ) /
          clampedTempo s.tempo s.rate⌋).toNat : ℚ) / s.pitch := by
        rw [le_div_iff₀ hp0]
        linarith
      have hPF1 : (1:ℤ) ≤ ⌊((⌊((s.inputBuffer.length / s.channels : ℕ) : ℚ) /
          clampedTempo s.tempo s.rate⌋).toNat : ℚ) / s.pitch⌋ :=
        Int.le_floor.mpr (by exact_mod_cast hPF)
      simp only [List.length_flatMap, length_resampleFrame, Function.comp_def,
        List.map_const', List.length_range, List.sum_replicate, smul_eq_mul]
      have hpos : 0 < (⌊((⌊((s.inputBuffer.length / s.channels : ℕ) : ℚ) /
          clampedTempo s.tempo s.rate⌋).toNat : ℚ) / s.pitch⌋).toNat := by omega
      positivity
    · simp only [List.length_flatMap, length_resampleFrame, Function.comp_def,
        List.map_const', List.length_range, List.sum_replicate, smul_eq_mul]
      have hpos : 0 < (⌊((s.inputBuffer.length / s.channels : ℕ) : ℚ) /
          clampedTempo s.tempo s.rate⌋).toNat := by omega
      positivity

-- Limiter frame facts (claim C1).

theorem limiterFrame_ceiling (st : LimiterState) (frame : List ℚ) :
    (limiterFrame st frame).1.ceiling = st.ceiling := rfl

theorem limiterFrame_out (st : LimiterState) (frame : List ℚ) (hc : 0 ≤ st.ceiling) :
    ∀ y ∈ (limiterFrame st frame).2, |y| ≤ st.ceiling := by
  intro y hy
  simp only [limiterFrame, List.mem_map] at hy
  obtain ⟨x, hx, rfl⟩ := hy
  exact abs_stdClamp_le _ _ hc

/-- C1: with the limiter enabled (and a sensibly configured channel count and
non-negative ceiling — the defaults give ceiling 0.989), every sample that
BattleLimiter::process emits has magnitude at most the configured ceiling, for every
input block, whatever gain the upstream bass boost and compressor makeup applied to
the samples before the limiter. -/
theorem limiter_output_le_ceiling (st : LimiterState) (xs : List ℚ)
    (hen : st.enabled = true) (hch : 0 < st.channels) (hc : 0 ≤ st.ceiling) :
    ∀ y ∈ (st.process xs).2, |y| ≤ st.ceiling := by
  intro y hy
  rw [LimiterState.process, if_pos hen] at hy
  exact frameLoop_out_bound st.channels limiterFrame
    (fun t => t.ceiling = st.ceiling) st.ceiling
    (fun t frame hP => (limiterFrame_ceiling t frame).trans hP)
    (fun t frame hP z hz => by
      have h0 : 0 ≤ t.ceiling := hP ▸ hc
      have hb := limiterFrame_out t frame h0 z hz
      rw [hP] at hb
      exact hb)
    hch xs st rfl y hy

/-- Witness for C1 at the default limiter state and a hot input block (samples far
beyond full scale, as if the upstream stages had applied a large gain). -/
theorem limiter_output_le_ceiling_w :
    LimiterState.init.enabled = true ∧ 0 < LimiterState.init.channels ∧
      (0:ℚ) ≤ LimiterState.init.ceiling ∧
      |((LimiterState.init.process [5, -7]).2.getD 0 0)| ≤ LimiterState.init.ceiling :=
  ⟨rfl, by decide, by with_unfolding_all decide,
    limiter_output_le_ceiling LimiterState.init [5, -7] rfl (by decide)
      (by with_unfolding_all decide) _ (by with_unfolding_all decide)⟩

-- Claim C2: flush and the buffered remainder.

/-- C2 counterexample: one stereo frame (non-empty input, far less than the ≈40 ms
sequence window of 1764 frames) is pushed into a fresh stub backend and flush() is
called; contrary to the claim, no output is pullable — flush does not force the
under-length remainder through, because processInternal still requires a full
sequence window. -/
theorem st_flush_short_cex :
    ([1000, 1000] : List ℤ) ≠ [] ∧
      ((STState.init.putSamples [1000, 1000] 1).flush).outputBuffer = [] ∧
      ((STState.init.putSamples [1000, 1000] 1).flush).numSamplesReady = 0 := by
  refine ⟨by decide, ?_, ?_⟩ <;> with_unfolding_all decide

/-- C2 as amended: pushing input and flushing emits pullable output exactly when the
accumulated input reaches the sequence window (the concrete bound also asks for at
least 40 frames so that the output size floor(inputFrames / effectiveTempo) is
positive for every clamped tempo, and the pitch ratio lies in its clamped range);
an under-length remainder produces nothing. -/
theorem st_flush_emits (s : STState) (xs : List ℤ) (nf : ℕ)
    (hch : 0 < s.channels) (hp0 : 0 < s.pitch) (hp4 : s.pitch ≤ 4)
    (hseq : s.sequenceSamples ≤
      (s.inputBuffer.length + min (nf * s.channels) xs.length) / s.channels)
    (hbig : 40 ≤ (s.inputBuffer.length + min (nf * s.channels) xs.length) / s.channels) :
    ((s.putSamples xs nf).flush).outputBuffer ≠ [] := by
  have hput : s.putSamples xs nf = STState.processInternal
      { s with inputBuffer := s.inputBuffer ++ xs.take (nf * s.channels) } := rfl
  have hlen : ({ s with inputBuffer := s.inputBuffer ++ xs.take (nf * s.channels) }
      : STState).inputBuffer.length =
      s.inputBuffer.length + min (nf * s.channels) xs.length := by
    simp [List.length_take]
  have h := processInternal_emits
    { s with inputBuffer := s.inputBuffer ++ xs.take (nf * s.channels) }
    (by simpa using hch) (by rw [hlen]; simpa using hseq)
    (by rw [hlen]; simpa using hbig) (by simpa using hp0) (by simpa using hp4)
  rw [hput, STState.flush, if_pos h.1]
  have hlt : 0 < (STState.processInternal
      { s with inputBuffer := s.inputBuffer ++ xs.take (nf * s.channels)
        }).outputBuffer.length := by
    omega
  exact List.length_pos.mp hlt

/-- Witness for C2 as amended: a fresh stub backend, 1764 stereo frames pushed (one
full 40 ms window at 44100 Hz), then flush; output is pullable. -/
theorem st_flush_emits_w :
    STState.init.sequenceSamples ≤
      (STState.init.inputBuffer.length +
        min (1764 * STState.init.channels) (List.replicate 3528 (7:ℤ)).length) /
        STState.init.channels ∧
      ((STState.init.putSamples (List.replicate 3528 (7:ℤ)) 1764).flush).outputBuffer
        ≠ [] :=
  ⟨by simp only [STState.init, List.length_replicate, List.length_nil]; decide,
    st_flush_emits STState.init (List.replicate 3528 (7:ℤ)) 1764
      (by decide) (by with_unfolding_all decide) (by with_unfolding_all decide)
      (by simp only [STState.init, List.length_replicate, List.length_nil]; decide)
      (by simp only [STState.init, List.length_replicate, List.length_nil]; decide)⟩

-- Engine clear and process routing facts.

@[simp] theorem clear_currentEngine (F : FloatOps) (s : EngineState) :
    (s.clear F).currentEngine = s.currentEngine := rfl

@[simp] theorem clear_superpoweredAvailable (F : FloatOps) (s : EngineState) :
    (s.clear F).superpoweredAvailable = s.superpoweredAvailable := rfl

@[simp] theorem clear_rubberbandAvailable (F : FloatOps) (s : EngineState) :
    (s.clear F).rubberbandAvailable = s.rubberbandAvailable := rfl

/-- process routes by the current engine id: Superpowered for id 1, the SoundTouch
path for every other id (the RUBBERBAND case is compiled without Rubberband). -/
theorem process_routing (F : FloatOps) (t : EngineState) (input : List ℤ) (n : ℤ)
    (hn : 0 < n) :
    (t.currentEngine ≠ 1 → t.process F input n = t.processSoundTouchPath F input n) ∧
    (t.currentEngine = 1 →
      t.process F input n = t.processSuperpoweredPath F input n) := by
  constructor <;> intro h <;> rw [EngineState.process, if_neg (by omega)]
  · rw [if_neg h]
    split_ifs <;> rfl
  · rw [if_pos h]

theorem setAudioEngine_currentEngine (F : FloatOps) (s : EngineState) (e : ℤ) :
    (s.setAudioEngine F e).currentEngine =
      if e = s.currentEngine then s.currentEngine
      else if fallbackEngine s e = 2 then 0 else fallbackEngine s e := by
  by_cases h1 : e = s.currentEngine
  · rw [EngineState.setAudioEngine, if_pos h1, if_pos h1]
  · by_cases h2 : fallbackEngine s e = 2
    · simp only [EngineState.setAudioEngine, if_neg h1, if_pos h2]
    · simp only [EngineState.setAudioEngine, if_neg h1, if_neg h2]
      all_goals rfl

theorem setAudioEngine_superpoweredAvailable (F : FloatOps) (s : EngineState)
    (e : ℤ) : (s.setAudioEngine F e).superpoweredAvailable =
      s.superpoweredAvailable := by
  by_cases h1 : e = s.currentEngine
  · rw [EngineState.setAudioEngine, if_pos h1]
  · by_cases h2 : fallbackEngine s e = 2
    · simp only [EngineState.setAudioEngine, if_neg h1, if_pos h2]
      all_goals rfl
    · simp only [EngineState.setAudioEngine, if_neg h1, if_neg h2]
      all_goals rfl

theorem setAudioEngine_rubberbandAvailable (F : FloatOps) (s : EngineState)
    (e : ℤ) : (s.setAudioEngine F e).rubberbandAvailable =
      s.rubberbandAvailable := by
  by_cases h1 : e = s.currentEngine
  · rw [EngineState.setAudioEngine, if_pos h1]
  · by_cases h2 : fallbackEngine s e = 2
    · simp only [EngineState.setAudioEngine, if_neg h1, if_pos h2]
      all_goals rfl
    · simp only [EngineState.setAudioEngine, if_neg h1, if_neg h2]
      all_goals rfl

theorem specFallbackTarget_available (s : EngineState) (e : ℤ) :
    backendAvailable s (specFallbackTarget s e) = true := by
  rw [specFallbackTarget]
  split_ifs with h1 h2 h3 <;> simp_all [backendAvailable]

theorem specFallbackTarget_one (s : EngineState) (e : ℤ) :
    specFallbackTarget s e = 1 → s.superpoweredAvailable = true := by
  rw [specFallbackTarget]
  split_ifs with h1 h2 h3 <;> intro h <;> simp_all [backendAvailable]

/-- C3: for every requested backend id in the enumeration, starting from a state
whose active backend is available (and with Rubberband compiled out, as the checked-in
sources fix), setAudioEngine leaves an available active backend, lands exactly on the
spec's fallback target (the requested backend if available, otherwise the first
available one in the order licensed > studio > reference), an active Superpowered
engine implies its availability, and a subsequent process call is routed to the
(always working) SoundTouch path unless the active engine is the available
Superpowered one. -/
theorem backend_fallback (F : FloatOps) (s : EngineState) (e : ℤ)
    (he : e = 0 ∨ e = 1 ∨ e = 2)
    (hav : backendAvailable s s.currentEngine = true)
    (hrb : s.rubberbandAvailable = false) :
    backendAvailable (s.setAudioEngine F e) (s.setAudioEngine F e).currentEngine
        = true ∧
      (s.setAudioEngine F e).currentEngine = specFallbackTarget s e ∧
      ((s.setAudioEngine F e).currentEngine = 1 →
        (s.setAudioEngine F e).superpoweredAvailable = true) ∧
      ∀ (input : List ℤ) (n : ℤ), 0 < n →
        ((s.setAudioEngine F e).currentEngine ≠ 1 →
          (s.setAudioEngine F e).process F input n =
            (s.setAudioEngine F e).processSoundTouchPath F input n) ∧
        ((s.setAudioEngine F e).currentEngine = 1 →
          (s.setAudioEngine F e).process F input n =
            (s.setAudioEngine F e).processSuperpoweredPath F input n) := by
  have hT : (s.setAudioEngine F e).currentEngine = specFallbackTarget s e := by
    rw [setAudioEngine_currentEngine]
    by_cases hcur : e = s.currentEngine
    · rw [if_pos hcur, specFallbackTarget, if_pos (hcur ▸ hav)]
      omega
    · rw [if_neg hcur]
      by_cases hspa : s.superpoweredAvailable = true
      · rcases he with rfl | rfl | rfl <;>
          simp [fallbackEngine, specFallbackTarget, backendAvailable, hrb, hspa]
      · have hsf : s.superpoweredAvailable = false := by simpa using hspa
        rcases he with rfl | rfl | rfl <;>
          simp [fallbackEngine, specFallbackTarget, backendAvailable, hrb, hsf]
  refine ⟨?_, hT, ?_, fun input n hn => process_routing F _ input n hn⟩
  · have hflags : ∀ x : ℤ,
        backendAvailable (s.setAudioEngine F e) x = backendAvailable s x := by
      intro x
      rw [backendAvailable, backendAvailable, setAudioEngine_superpoweredAvailable,
        setAudioEngine_rubberbandAvailable]
    rw [hflags, hT]
    exact specFallbackTarget_available s e
  · intro h1
    rw [setAudioEngine_superpoweredAvailable]
    exact specFallbackTarget_one s e (hT ▸ h1)

/-- Witness for C3 at the freshly constructed engine (Superpowered licensed and
available, Rubberband absent), requesting the studio backend id 2: the facade falls
back in priority order onto the licensed backend. -/
theorem backend_fallback_w :
    (((2:ℤ) = 0 ∨ (2:ℤ) = 1 ∨ (2:ℤ) = 2) ∧
      backendAvailable engineCreate engineCreate.currentEngine = true ∧
      engineCreate.rubberbandAvailable = false) ∧
      (backendAvailable (engineCreate.setAudioEngine opsTest 2)
          (engineCreate.setAudioEngine opsTest 2).currentEngine = true ∧
        (engineCreate.setAudioEngine opsTest 2).currentEngine =
          specFallbackTarget engineCreate 2 ∧
        ((engineCreate.setAudioEngine opsTest 2).currentEngine = 1 →
          (engineCreate.setAudioEngine opsTest 2).superpoweredAvailable = true) ∧
        ∀ (input : List ℤ) (n : ℤ), 0 < n →
          ((engineCreate.setAudioEngine opsTest 2).currentEngine ≠ 1 →
            (engineCreate.setAudioEngine opsTest 2).process opsTest input n =
              (engineCreate.setAudioEngine opsTest 2).processSoundTouchPath opsTest
                input n) ∧
          ((engineCreate.setAudioEngine opsTest 2).currentEngine = 1 →
            (engineCreate.setAudioEngine opsTest 2).process opsTest input n =
              (engineCreate.setAudioEngine opsTest 2).processSuperpoweredPath opsTest
                input n)) :=
  ⟨⟨by decide, rfl, rfl⟩, backend_fallback opsTest engineCreate 2 (by decide) rfl rfl⟩

-- Rate-mode preservation facts (claim C4).

theorem processSoundTouchPath_useRateMode (F : FloatOps) (s : EngineState)
    (input : List ℤ) (n : ℤ) :
    (s.processSoundTouchPath F input n).1.useRateMode = s.useRateMode := by
  rw [EngineState.processSoundTouchPath]
  simp only
  split_ifs <;> rfl

theorem processSuperpoweredPath_useRateMode (F : FloatOps) (s : EngineState)
    (input : List ℤ) (n : ℤ) :
    (s.processSuperpoweredPath F input n).1.useRateMode = s.useRateMode := by
  rw [EngineState.processSuperpoweredPath]
  split_ifs with h
  · exact processSoundTouchPath_useRateMode F s input n
  · rfl

theorem process_useRateMode (F : FloatOps) (s : EngineState) (input : List ℤ)
    (n : ℤ) : (s.process F input n).1.useRateMode = s.useRateMode := by
  rw [EngineState.process]
  split_ifs with h1 h2 h3
  · rfl
  · exact processSuperpoweredPath_useRateMode F s input n
  · exact processSoundTouchPath_useRateMode F s input n
  · exact processSoundTouchPath_useRateMode F s input n

theorem setAudioEngine_useRateMode (F : FloatOps) (s : EngineState) (e : ℤ) :
    (s.setAudioEngine F e).useRateMode = s.useRateMode := by
  by_cases h1 : e = s.currentEngine
  · rw [EngineState.setAudioEngine, if_pos h1]
  · by_cases h2 : fallbackEngine s e = 2
    · simp only [EngineState.setAudioEngine, if_neg h1, if_pos h2]
      all_goals rfl
    · simp only [EngineState.setAudioEngine, if_neg h1, if_neg h2]
      all_goals rfl

/-- C4 counterexample: contrary to the claim that the facade's reset operation
(clear) returns it to independent speed/pitch mode, rate mode is still enabled after
clear() on a facade where setRate was called. -/
theorem rate_mode_clear_cex :
    ((engineCreate.setRate opsTest 2).clear opsTest).useRateMode = true ∧
      engineCreate.useRateMode = false := ⟨rfl, rfl⟩

/-- C4 as amended: setRate(v) enables rate mode, and rate mode then stays enabled for
the facade's whole lifetime — no parameter setter, process call, flush, backend
switch, or even clear() disables it (clear does not return the facade to independent
speed/pitch mode; only destroying and recreating the facade does). -/
theorem rate_mode_sticky (F : FloatOps) (t : EngineState) (v : ℚ) (b : Bool)
    (e n : ℤ) (input : List ℤ) (h : t.useRateMode = true) :
    (t.setRate F v).useRateMode = true ∧
      (t.setSpeed F v).useRateMode = true ∧
      (t.setPitch F v).useRateMode = true ∧
      (t.setFormantPreservation b).useRateMode = true ∧
      (t.setBattleMode b).useRateMode = true ∧
      (t.setLimiterEnabled b).useRateMode = true ∧
      (t.setHardwareProtection b).useRateMode = true ∧
      (t.setAudiophileMode b).useRateMode = true ∧
      (t.setBassBoost F v).useRateMode = true ∧
      (t.setSubHarmonicAmount v).useRateMode = true ∧
      (t.setExciterAmount v).useRateMode = true ∧
      (t.setLimiterThreshold F v).useRateMode = true ∧
      (t.setCompressorRatio v).useRateMode = true ∧
      (t.setAudioEngine F e).useRateMode = true ∧
      (t.process F input n).1.useRateMode = true ∧
      (t.flushBackend).useRateMode = true ∧
      (t.clear F).useRateMode = true := by
  refine ⟨rfl, h, h, h, h, h, ?_, ?_, h, h, h, h, h, ?_, ?_, h, h⟩
  · rw [EngineState.setHardwareProtection]
    cases b <;> simpa using h
  · rw [EngineState.setAudiophileMode]
    cases b <;> simpa using h
  · rw [setAudioEngine_useRateMode]
    exact h
  · rw [process_useRateMode]
    exact h

/-- Witness for C4 as amended at a freshly created facade put into rate mode. -/
theorem rate_mode_sticky_w :
    (engineCreate.setRate opsTest 2).useRateMode = true ∧
      ((engineCreate.setRate opsTest 2).clear opsTest).useRateMode = true ∧
      (((engineCreate.setRate opsTest 2).process opsTest [3, 4] 2).1).useRateMode
        = true :=
  ⟨rfl, ((rate_mode_sticky opsTest (engineCreate.setRate opsTest 2) 1 true 0 2 [3, 4]
      rfl).2.2.2.2.2.2.2.2.2.2.2.2.2.2.2.2),
    ((rate_mode_sticky opsTest (engineCreate.setRate opsTest 2) 1 true 0 2 [3, 4]
      rfl).2.2.2.2.2.2.2.2.2.2.2.2.2.2.1)⟩

-- Claim C5: the audiophile round trip.

/-- C5 counterexample: with battleMode on and the exciter amount at 0.5, entering and
leaving audiophile mode does NOT restore the exciter (or sub-harmonic) amount — it
stays zeroed, contrary to the claim. -/
theorem audiophile_roundtrip_cex :
    ((engineCreate.setBattleMode true).setExciterAmount (1/2)).battleMode = true ∧
      ((engineCreate.setBattleMode true).setExciterAmount (1/2)).exciterAmount
        = 1/2 ∧
      (((((engineCreate.setBattleMode true).setExciterAmount
            (1/2)).setAudiophileMode true).setAudiophileMode false)).exciterAmount
        = 0 ∧
      (1/2 : ℚ) ≠ 0 := by
  refine ⟨rfl, ?_, ?_, ?_⟩ <;> with_unfolding_all decide

/-- C5 as amended: with battleMode previously true, setAudiophileMode(true) followed
by setAudiophileMode(false) restores the compressor's enabled state (it is re-enabled
from battleMode), but the exciter and sub-harmonic amounts are zeroed on entry and
stay zero after exit — they are not restored. -/
theorem audiophile_roundtrip (s : EngineState) (hb : s.battleMode = true)
    (hc : s.compressor.enabled = true) :
    ((s.setAudiophileMode true).setAudiophileMode false).compressor.enabled
        = s.compressor.enabled ∧
      ((s.setAudiophileMode true).setAudiophileMode false).exciterAmount = 0 ∧
      ((s.setAudiophileMode true).setAudiophileMode false).subHarmonicAmount = 0 :=
  ⟨hb.trans hc.symm, rfl, rfl⟩

/-- Witness for C5 as amended at a battle-mode facade whose exciter amount is 0.5. -/
theorem audiophile_roundtrip_w :
    ((engineCreate.setBattleMode true).setExciterAmount (1/2)).battleMode = true ∧
      ((engineCreate.setBattleMode true).setExciterAmount
          (1/2)).compressor.enabled = true ∧
      (((((engineCreate.setBattleMode true).setExciterAmount
            (1/2)).setAudiophileMode true).setAudiophileMode
            false)).compressor.enabled =
        ((engineCreate.setBattleMode true).setExciterAmount
          (1/2)).compressor.enabled :=
  ⟨rfl, rfl,
    (audiophile_roundtrip ((engineCreate.setBattleMode true).setExciterAmount (1/2))
      rfl rfl).1⟩

-- Claim C6: out-of-enumeration backend identifiers.

/-- C6 counterexample: after battle_engine_set_audio_engine with the out-of-range id
5, battle_engine_get_audio_engine reports 5, not the reference identifier 0 — the raw
value is stored in currentEngine because no switch case matches it. -/
theorem out_of_range_engine_cex :
    (engineCreate.setAudioEngine opsTest 5).getAudioEngine = 5 ∧ (5:ℤ) ≠ 0 :=
  ⟨rfl, by decide⟩

/-- C6 as amended: an out-of-range backend identifier is treated as the reference
backend only by process — subsequent process calls run the SoundTouch path — while
battle_engine_get_audio_engine reports the raw out-of-range identifier back, not the
reference identifier. -/
theorem out_of_range_engine (F : FloatOps) (s : EngineState) (e : ℤ)
    (h0 : e ≠ 0) (h1 : e ≠ 1) (h2 : e ≠ 2) :
    (s.setAudioEngine F e).getAudioEngine = e ∧
      ∀ (input : List ℤ) (n : ℤ), 0 < n →
        (s.setAudioEngine F e).process F input n =
          (s.setAudioEngine F e).processSoundTouchPath F input n := by
  have hfb : fallbackEngine s e = e := by
    rw [fallbackEngine]
    simp only [if_neg (show ¬(e = 1 ∧ s.superpoweredAvailable = false) from
      fun hc => h1 hc.1)]
    simp only [if_neg (show ¬(e = 2 ∧ s.rubberbandAvailable = false) from
      fun hc => h2 hc.1)]
  have hce : (s.setAudioEngine F e).currentEngine = e := by
    rw [setAudioEngine_currentEngine, hfb]
    by_cases hcur : e = s.currentEngine
    · rw [if_pos hcur]
      omega
    · rw [if_neg hcur, if_neg h2]
  constructor
  · exact hce
  · intro input n hn
    exact (process_routing F _ input n hn).1 (by rw [hce]; exact h1)

/-- Witness for C6 as amended at the fresh engine and the out-of-range id 7. -/
theorem out_of_range_engine_w :
    ((7:ℤ) ≠ 0 ∧ (7:ℤ) ≠ 1 ∧ (7:ℤ) ≠ 2) ∧
      (engineCreate.setAudioEngine opsTest 7).getAudioEngine = 7 ∧
      ∀ (input : List ℤ) (n : ℤ), 0 < n →
        (engineCreate.setAudioEngine opsTest 7).process opsTest input n =
          (engineCreate.setAudioEngine opsTest 7).processSoundTouchPath opsTest
            input n :=
  ⟨⟨by decide, by decide, by decide⟩,
    out_of_range_engine opsTest engineCreate 7 (by decide) (by decide) (by decide)⟩

-- Claim C7: the clamp law for setSpeed and setPitch.

/-- C7: setSpeed clamps its argument to [0.05, 10] and setPitch to [-36, 36]: for
every v and s the effective (getter-visible) speed and pitch equal the clamped
arguments, and in particular setSpeed(20) yields 10 while setPitch(-100) yields
-36. -/
theorem speed_pitch_clamp (F : FloatOps) (s : EngineState) (v semis : ℚ) :
    (s.setSpeed F v).getSpeed = stdClamp v 0.05 10 ∧
      (s.setPitch F semis).getPitch = stdClamp semis (-36) 36 ∧
      (s.setSpeed F 20).getSpeed = 10 ∧
      (s.setPitch F (-100)).getPitch = -36 := by
  refine ⟨rfl, rfl, ?_, ?_⟩
  · show stdClamp 20 0.05 10 = 10
    rw [stdClamp]
    norm_num
  · show stdClamp (-100) (-36) 36 = -36
    rw [stdClamp]
    norm_num

-- Claim C8: backend pitch ratio is the deterministic double clamp.

/-- C8: after setPitch(p) with rate mode inactive, the SoundTouch backend's internal
pitch ratio equals the deterministic backend-specific clamp of the logical parameter,
clamp(2^(clamp(p, -36, 36)/12), 0.25, 4.0) — the engine clamps the semitones and
converts with the float pow routine, and SoundTouch::setPitch clamps the resulting
ratio; out-of-range values are clamped, never rejected. -/
theorem pitch_backend_clamp (F : FloatOps) (s : EngineState) (p : ℚ)
    (h : s.useRateMode = false) :
    ((s.setPitch F p).soundTouch).pitch =
      stdClamp (F.pow2 (stdClamp p (-36) 36 / 12)) 0.25 4 := by
  have h2 : ¬(({ s with pitchSemitones := stdClamp p (-36) 36 }
      : EngineState).useRateMode = true) := by
    show ¬(s.useRateMode = true)
    rw [h]
    simp
  rw [EngineState.setPitch, EngineState.updateSoundTouch]
  simp only [if_neg h2]
  rfl

/-- Witness for C8 at the fresh engine (rate mode off) and an out-of-range pitch of
-100 semitones. -/
theorem pitch_backend_clamp_w :
    engineCreate.useRateMode = false ∧
      ((engineCreate.setPitch opsTest (-100)).soundTouch).pitch =
        stdClamp (opsTest.pow2 (stdClamp (-100) (-36) 36 / 12)) 0.25 4 :=
  ⟨rfl, pitch_backend_clamp opsTest engineCreate (-100) rfl⟩

-- Claim C9: non-positive sample counts.

/-- C9: for every process call with numSamples ≤ 0 (including empty input), the call
reports zero produced samples, produces no output, and returns the engine state
entirely unchanged — backend buffers, filter states and playback parameters
included. -/
theorem process_nonpositive (F : FloatOps) (s : EngineState) (input : List ℤ)
    (n : ℤ) (h : n ≤ 0) :
    s.process F input n = (s, [], 0) := by
  rw [EngineState.process, if_pos h]

/-- Witness for C9 at the fresh engine with numSamples = 0 and with -5. -/
theorem process_nonpositive_w :
    (0:ℤ) ≤ 0 ∧ engineCreate.process opsTest [] 0 = (engineCreate, [], 0) ∧
      engineCreate.process opsTest [3] (-5) = (engineCreate, [], 0) :=
  ⟨by decide, process_nonpositive opsTest engineCreate [] 0 (by decide),
    process_nonpositive opsTest engineCreate [3] (-5) (by decide)⟩

-- Claim C10: the compressor multiplies by the makeup gain below threshold.

theorem foldl_peak_le (T a : ℚ) (frame : List ℚ) (ha : a ≤ T)
    (hx : ∀ x ∈ frame, |x| ≤ T) :
    frame.foldl (fun p x => max p |x|) a ≤ T := by
  induction frame generalizing a with
  | nil => exact ha
  | cons y ys ih =>
    exact ih (max a |y|)
      (max_le ha (hx y (List.mem_cons_self y ys)))
      (fun x hxm => hx x (List.mem_cons_of_mem y hxm))

theorem compressorFrame_below (F : FloatOps) (ac rc T M : ℚ)
    (t : CompressorState) (frame : List ℚ)
    (hac0 : 0 ≤ ac) (hac1 : ac ≤ 1) (hrc0 : 0 ≤ rc) (hrc1 : rc ≤ 1)
    (hT : 0 ≤ T)
    (henv : t.envelope ≤ T) (hcg : t.currentGain = 1) (hth : t.threshold = T)
    (hmk : t.makeupGain = M)
    (hQ : ∀ x ∈ frame, |x| ≤ T) :
    ((compressorFrame F ac rc t frame).1.envelope ≤ T ∧
      (compressorFrame F ac rc t frame).1.currentGain = 1 ∧
      (compressorFrame F ac rc t frame).1.threshold = T ∧
      (compressorFrame F ac rc t frame).1.makeupGain = M) ∧
      (compressorFrame F ac rc t frame).2 = frame.map (fun x => x * M) := by
  have hpeak : frame.foldl (fun p x => max p |x|) 0 ≤ T :=
    foldl_peak_le T 0 frame hT hQ
  have hattack : ac * t.envelope + (1 - ac) *
      (frame.foldl (fun p x => max p |x|) 0) ≤ T := by
    have h1 : ac * t.envelope ≤ ac * T := mul_le_mul_of_nonneg_left henv hac0
    have h2 : (1 - ac) * (frame.foldl (fun p x => max p |x|) 0) ≤ (1 - ac) * T :=
      mul_le_mul_of_nonneg_left hpeak (by linarith)
    nlinarith
  have hrelease : rc * t.envelope + (1 - rc) *
      (frame.foldl (fun p x => max p |x|) 0) ≤ T := by
    have h1 : rc * t.envelope ≤ rc * T := mul_le_mul_of_nonneg_left henv hrc0
    have h2 : (1 - rc) * (frame.foldl (fun p x => max p |x|) 0) ≤ (1 - rc) * T :=
      mul_le_mul_of_nonneg_left hpeak (by linarith)
    nlinarith
  simp only [compressorFrame]
  split_ifs with hA hB hC
  · exact absurd hB (not_lt.mpr (hth ▸ hattack))
  · refine ⟨⟨hattack, by rw [hcg]; norm_num, hth, hmk⟩, ?_⟩
    simp only [hcg, hmk]
    norm_num
  · exact absurd hC (not_lt.mpr (hth ▸ hrelease))
  · refine ⟨⟨hrelease, by rw [hcg]; norm_num, hth, hmk⟩, ?_⟩
    simp only [hcg, hmk]
    norm_num

/-- C10: with the compressor stage enabled and its smoothed gain at its reset value,
a signal whose envelope never exceeds the threshold (every sample within the
threshold, envelope starting below it) is amplified by exactly the makeup gain
(default 2.0, i.e. +6 dB): every output sample is the input sample times the makeup
gain, not a pass-through.  The engine applies this stage whenever battleMode is on
and nothing (such as audiophile mode) has disabled the compressor. -/
theorem compressor_below_threshold (F : FloatOps) (st : CompressorState)
    (xs : List ℚ)
    (hen : st.enabled = true) (hch : 0 < st.channels)
    (hth : 0 ≤ st.threshold) (henv : st.envelope ≤ st.threshold)
    (hcg : st.currentGain = 1)
    (hac0 : 0 ≤ F.expQ (-1 / (st.attackMs * (st.sampleRate : ℚ) / 1000)))
    (hac1 : F.expQ (-1 / (st.attackMs * (st.sampleRate : ℚ) / 1000)) ≤ 1)
    (hrc0 : 0 ≤ F.expQ (-1 / (st.releaseMs * (st.sampleRate : ℚ) / 1000)))
    (hrc1 : F.expQ (-1 / (st.releaseMs * (st.sampleRate : ℚ) / 1000)) ≤ 1)
    (hx : ∀ x ∈ xs, |x| ≤ st.threshold) :
    (st.process F xs).2 = xs.map (fun x => x * st.makeupGain) := by
  rw [CompressorState.process, if_neg (by rw [hen]; simp)]
  exact frameLoop_out_map st.channels
    (compressorFrame F (F.expQ (-1 / (st.attackMs * (st.sampleRate : ℚ) / 1000)))
      (F.expQ (-1 / (st.releaseMs * (st.sampleRate : ℚ) / 1000))))
    (fun t => t.envelope ≤ st.threshold ∧ t.currentGain = 1 ∧
      t.threshold = st.threshold ∧ t.makeupGain = st.makeupGain)
    (fun x => |x| ≤ st.threshold)
    (fun x => x * st.makeupGain)
    (fun t frame hP hQ =>
      (compressorFrame_below F _ _ st.threshold st.makeupGain t frame
        hac0 hac1 hrc0 hrc1 hth hP.1 hP.2.1 hP.2.2.1 hP.2.2.2 hQ).1)
    (fun t frame hP hQ =>
      (compressorFrame_below F _ _ st.threshold st.makeupGain t frame
        hac0 hac1 hrc0 hrc1 hth hP.1 hP.2.1 hP.2.2.1 hP.2.2.2 hQ).2)
    hch xs st ⟨henv, hcg, rfl, rfl⟩ hx

/-- Witness for C10 at the default compressor (threshold 0.25, makeup gain 2.0) and a
quiet two-sample block. -/
theorem compressor_below_threshold_w :
    CompressorState.init.enabled = true ∧
      (∀ x ∈ ([1/10, -1/5] : List ℚ), |x| ≤ CompressorState.init.threshold) ∧
      (CompressorState.init.process opsTest [1/10, -1/5]).2 =
        ([1/10, -1/5] : List ℚ).map (fun x => x * CompressorState.init.makeupGain) :=
  ⟨rfl, by with_unfolding_all decide,
    compressor_below_threshold opsTest CompressorState.init [1/10, -1/5]
      rfl (by decide) (by with_unfolding_all decide) (by with_unfolding_all decide)
      rfl (by with_unfolding_all decide) (by with_unfolding_all decide)
      (by with_unfolding_all decide) (by with_unfolding_all decide)
      (by with_unfolding_all decide)⟩
